import Mathlib

/-!
Shallow embedding of the SuperMemo-2 scheduler of `supermemo.py`
(class `SuperMemo2`), together with theorems settling the spec claims.

Modelling conventions:
* Python `datetime` values are modelled by `PyDateTime`: the proleptic
  ordinal of the date component (`datetime.date().toordinal()`) plus the
  time of day as a rational fraction of a day.  `datetime.min` is day 1 at
  midnight.  Comparison of datetimes is lexicographic on (day, time).
* Python floats are modelled by exact rationals; Python `round` (both the
  one-argument and the `ndigits` form) is round-half-to-even, which
  `pyRound` implements exactly.
* The nullable SQLAlchemy columns of `QuesAns` are `Option`-valued fields.
  Python's `x or default` idiom (which substitutes the default both for
  `None` and for a zero value) is `pyOrQ`/`pyOrZ`.
* A raised exception is an `Except.error` carrying the message; a function
  that raises before assigning any attribute leaves its arguments
  untouched, which the pure embedding reflects by returning only the error.
* Python's `sorted` is a stable sort by a total preorder; it is embedded
  as `List.insertionSort`, which Mathlib defines and which is stable.
-/

/-- Model of a Python `datetime`: ordinal of the date component and the
time of day as a fraction of a day. -/
structure PyDateTime where
  day : Int
  tod : Rat
deriving DecidableEq

/-- Model of `datetime.min`: day ordinal 1 (0001-01-01) at midnight. -/
def datetimeMin : PyDateTime := ⟨1, 0⟩

/-- Model of `dt + timedelta(days = n)`. -/
def addDays (d : PyDateTime) (n : Int) : PyDateTime := ⟨d.day + n, d.tod⟩

/-- Model of the `QuesAns` record (its scheduling fields; `main.py` lines
61-81).  `RevisedDate`, `RecallDate`, `LastGrade` are nullable columns;
`EasinessFactor`, `Repetitions`, `Interval` are also optional here because
an in-memory object may not have been assigned them yet, which the
scheduler code tolerates through the `or`-default idiom. -/
structure QuesAns where
  id : Int
  EasinessFactor : Option Rat
  Repetitions : Option Int
  Interval : Option Int
  RevisedDate : Option PyDateTime
  RecallDate : Option PyDateTime
  LastGrade : Option Int
deriving DecidableEq

/-- Model of Python's `x or d` for a float-valued attribute: the default is
taken when the value is missing or zero (both are falsy). -/
def pyOrQ (x : Option Rat) (d : Rat) : Rat :=
  match x with
  | none => d
  | some v => if v = 0 then d else v

/-- Model of Python's `x or d` for an int-valued attribute. -/
def pyOrZ (x : Option Int) (d : Int) : Int :=
  match x with
  | none => d
  | some v => if v = 0 then d else v

/-- Model of Python's one-argument `round`: round half to even. -/
def pyRound (q : Rat) : Int :=
  let f := ⌊q⌋
  if q - f < 1 / 2 then f
  else if 1 / 2 < q - f then f + 1
  else if f % 2 = 0 then f else f + 1

/-- Model of Python's `round(q, 2)`. -/
def round2 (q : Rat) : Rat := (pyRound (q * 100) : Rat) / 100

/-- Model of Python's `round(q, 1)`. -/
def round1 (q : Rat) : Rat := (pyRound (q * 10) : Rat) / 10

/-- Constant set in `SuperMemo2.__init__`. -/
def DEFAULT_EASINESS : Rat := 2.5

/-- Constant set in `SuperMemo2.__init__`. -/
def DEFAULT_REPETITIONS : Int := 0

/-- Constant set in `SuperMemo2.__init__`. -/
def DEFAULT_INTERVAL : Int := 1

/-- Constant set in `SuperMemo2.__init__`. -/
def MIN_EASINESS : Rat := 1.3

/-- Dictionary returned by `calculate_next_revision`. -/
structure RevisionResult where
  RevisedDate : PyDateTime
  RecallDate : PyDateTime
  EasinessFactor : Rat
  Repetitions : Int
  Interval : Int
  LastGrade : Int
deriving DecidableEq

/-- Embedding of `SuperMemo2.calculate_next_revision` (`supermemo.py`
lines 18-75).  The wall clock (`datetime.now()`) is the explicit `now`
argument.  A grade outside `[1, 5]` raises `ValueError`, modelled as
`Except.error` with the source's message. -/
def calculate_next_revision (now : PyDateTime) (question : QuesAns) (grade : Int) :
    Except String RevisionResult :=
  if 1 ≤ grade ∧ grade ≤ 5 then
    let easiness_factor := pyOrQ question.EasinessFactor DEFAULT_EASINESS
    let repetitions := pyOrZ question.Repetitions DEFAULT_REPETITIONS
    let interval := pyOrZ question.Interval DEFAULT_INTERVAL
    let new_easiness_factor :=
      max MIN_EASINESS
        (easiness_factor + (0.1 - (5 - (grade : Rat)) * (0.08 + (5 - (grade : Rat)) * 0.02)))
    let ri : Int × Int :=
      if grade < 3 then (0, 1)
      else
        let new_repetitions := repetitions + 1
        (new_repetitions,
          if new_repetitions = 1 then 1
          else if new_repetitions = 2 then 6
          else pyRound ((interval : Rat) * new_easiness_factor))
    Except.ok
      { RevisedDate := now
        RecallDate := addDays now ri.2
        EasinessFactor := round2 new_easiness_factor
        Repetitions := ri.1
        Interval := ri.2
        LastGrade := grade }
  else Except.error ("Grade must be between 1 and 5")

/-- Assignment of the dictionary produced by `calculate_next_revision`
onto the question object (the `setattr` loop). -/
def applyUpdate (question : QuesAns) (r : RevisionResult) : QuesAns :=
  { question with
      RevisedDate := some r.RevisedDate
      RecallDate := some r.RecallDate
      EasinessFactor := some r.EasinessFactor
      Repetitions := some r.Repetitions
      Interval := some r.Interval
      LastGrade := some r.LastGrade }

/-- Embedding of `SuperMemo2.update_question_after_review` (lines 77-95):
the exception of `calculate_next_revision` propagates before any
attribute is assigned, so on error the question is unchanged. -/
def update_question_after_review (now : PyDateTime) (question : QuesAns) (grade : Int) :
    Except String QuesAns :=
  match calculate_next_revision now question grade with
  | Except.error e => Except.error e
  | Except.ok r => Except.ok (applyUpdate question r)

example :
    calculate_next_revision datetimeMin
      { id := 1, EasinessFactor := some 2.5, Repetitions := some 0, Interval := some 1,
        RevisedDate := none, RecallDate := none, LastGrade := none } 4 =
    Except.ok
      { RevisedDate := datetimeMin, RecallDate := ⟨2, 0⟩, EasinessFactor := 2.5,
        Repetitions := 1, Interval := 1, LastGrade := 4 } := by
  norm_num [calculate_next_revision, pyOrQ, pyOrZ, round2, pyRound, DEFAULT_EASINESS,
    MIN_EASINESS, DEFAULT_REPETITIONS, DEFAULT_INTERVAL, addDays, datetimeMin]

example :
    calculate_next_revision datetimeMin
      { id := 1, EasinessFactor := some 2.0, Repetitions := some 3, Interval := some 10,
        RevisedDate := none, RecallDate := none, LastGrade := none } 2 =
    Except.ok
      { RevisedDate := datetimeMin, RecallDate := ⟨2, 0⟩, EasinessFactor := 1.68,
        Repetitions := 0, Interval := 1, LastGrade := 2 } := by
  norm_num [calculate_next_revision, pyOrQ, pyOrZ, round2, pyRound, DEFAULT_EASINESS,
    MIN_EASINESS, DEFAULT_REPETITIONS, DEFAULT_INTERVAL, addDays, datetimeMin]

example :
    calculate_next_revision datetimeMin
      { id := 1, EasinessFactor := some 2.6, Repetitions := some 1, Interval := some 1,
        RevisedDate := none, RecallDate := none, LastGrade := none } 5 =
    Except.ok
      { RevisedDate := datetimeMin, RecallDate := ⟨7, 0⟩, EasinessFactor := 2.7,
        Repetitions := 2, Interval := 6, LastGrade := 5 } := by
  norm_num [calculate_next_revision, pyOrQ, pyOrZ, round2, pyRound, DEFAULT_EASINESS,
    MIN_EASINESS, DEFAULT_REPETITIONS, DEFAULT_INTERVAL, addDays, datetimeMin]

/-- Due test of `SuperMemo2.get_due_questions` (lines 97-118): a question
with no `RecallDate` is always due; otherwise it is due when the date
component of `RecallDate` is at most today. -/
def isDue (today : Int) (question : QuesAns) : Bool :=
  match question.RecallDate with
  | none => true
  | some d => decide (d.day ≤ today)

/-- Embedding of `SuperMemo2.get_due_questions`: the loop appends exactly
the questions passing `isDue`, in input order, which is `List.filter`. -/
def get_due_questions (today : Int) (questions : List QuesAns) : List QuesAns :=
  questions.filter (isDue today)

/-- Embedding of `SuperMemo2.get_new_questions` (lines 120-130). -/
def get_new_questions (questions : List QuesAns) : List QuesAns :=
  questions.filter (fun q => q.RevisedDate.isNone)

/-- Dictionary returned by `get_study_statistics`. -/
structure StudyStats where
  total_questions : Nat
  due_today : Nat
  new_questions : Nat
  studied_questions : Nat
  average_easiness_factor : Rat
  completion_rate : Rat
deriving DecidableEq

/-- Model of Python's `sum(q.EasinessFactor for q in l)` with start value
`acc`: adding `None` to a number raises `TypeError`, modelled as an
`Except.error`. -/
def pySumEF (acc : Rat) : List QuesAns → Except String Rat
  | [] => Except.ok acc
  | q :: rest =>
    match q.EasinessFactor with
    | none => Except.error ("unsupported operand type for +: NoneType")
    | some e => pySumEF (acc + e) rest

/-- Embedding of `SuperMemo2.get_study_statistics` (lines 132-169).  The
average easiness is the sum over studied questions divided by their
count; the `sum` raises if a studied question has no easiness factor. -/
def get_study_statistics (today : Int) (questions : List QuesAns) :
    Except String StudyStats :=
  if questions.isEmpty then
    Except.ok
      { total_questions := 0
        due_today := 0
        new_questions := 0
        studied_questions := 0
        average_easiness_factor := DEFAULT_EASINESS
        completion_rate := 0 }
  else
    let due_questions := get_due_questions today questions
    let new_qs := get_new_questions questions
    let studied_questions := questions.filter (fun q => q.RevisedDate.isSome)
    match
      (if studied_questions.isEmpty then Except.ok DEFAULT_EASINESS
       else Except.map (fun s => s / (studied_questions.length : Rat))
              (pySumEF 0 studied_questions))
    with
    | Except.error e => Except.error e
    | Except.ok avg_easiness =>
      Except.ok
        { total_questions := questions.length
          due_today := due_questions.length
          new_questions := new_qs.length
          studied_questions := studied_questions.length
          average_easiness_factor := round2 avg_easiness
          completion_rate :=
            if questions.isEmpty then 0
            else round1 (((studied_questions.length : Rat) / (questions.length : Rat)) * 100) }

/-- Sort key used for a question's `RecallDate`, with
`q.RecallDate if q.RecallDate else datetime.min` flattened to the pair
(day ordinal, time of day). -/
def recallKey (q : QuesAns) : Int × Rat :=
  let d := q.RecallDate.getD datetimeMin
  (d.day, d.tod)

/-- Lexicographic order on (day, time) pairs: how Python compares two
`datetime` values. -/
def lex2Le (x y : Int × Rat) : Prop :=
  x.1 < y.1 ∨ (x.1 = y.1 ∧ x.2 ≤ y.2)

/-- Strict lexicographic order on (day, time) pairs. -/
def lex2Lt (x y : Int × Rat) : Prop :=
  x.1 < y.1 ∨ (x.1 = y.1 ∧ x.2 < y.2)

/-- Lexicographic order on ((day, time), id) keys: how Python compares
the `(q.RecallDate or datetime.min, q.id)` tuples. -/
def lex3Le (x y : (Int × Rat) × Int) : Prop :=
  lex2Lt x.1 y.1 ∨ (x.1 = y.1 ∧ x.2 ≤ y.2)

/-- Comparison used by the `sorted` call of `get_next_review_batch`:
key `q.RecallDate if q.RecallDate else datetime.min`. -/
def batchLe (a b : QuesAns) : Prop := lex2Le (recallKey a) (recallKey b)

/-- Strict version of `batchLe`. -/
def batchLt (a b : QuesAns) : Prop := lex2Lt (recallKey a) (recallKey b)

/-- Comparison used by the `sorted` call of
`get_chapter_questions_for_study`: key
`(q.RecallDate if q.RecallDate else datetime.min, q.id)`. -/
def chapterLe (a b : QuesAns) : Prop :=
  lex3Le (recallKey a, a.id) (recallKey b, b.id)

instance : DecidableRel lex2Le := fun x y =>
  inferInstanceAs (Decidable (x.1 < y.1 ∨ (x.1 = y.1 ∧ x.2 ≤ y.2)))

instance : DecidableRel lex2Lt := fun x y =>
  inferInstanceAs (Decidable (x.1 < y.1 ∨ (x.1 = y.1 ∧ x.2 < y.2)))

instance : DecidableRel lex3Le := fun x y =>
  inferInstanceAs (Decidable (lex2Lt x.1 y.1 ∨ (x.1 = y.1 ∧ x.2 ≤ y.2)))

instance : DecidableRel batchLe := fun a b =>
  inferInstanceAs (Decidable (lex2Le (recallKey a) (recallKey b)))

instance : DecidableRel batchLt := fun a b =>
  inferInstanceAs (Decidable (lex2Lt (recallKey a) (recallKey b)))

instance : DecidableRel chapterLe := fun a b =>
  inferInstanceAs (Decidable (lex3Le (recallKey a, a.id) (recallKey b, b.id)))

/-- Model of the Python slice `xs[:n]`: a nonnegative bound keeps the
first `n` elements, a negative bound drops the last `-n`. -/
def pySliceTo {α : Type} (xs : List α) (n : Int) : List α :=
  if 0 ≤ n then xs.take n.toNat else xs.take (xs.length - (-n).toNat)

/-- Embedding of `SuperMemo2.get_next_review_batch` (lines 171-190):
filters the due questions, sorts them by `RecallDate` alone (absent
treated as `datetime.min`), and truncates to `batch_size` (default 10).
Python's `sorted` is stable, as is `List.insertionSort`. -/
def get_next_review_batch (today : Int) (questions : List QuesAns)
    (batch_size : Int) : List QuesAns :=
  pySliceTo (List.insertionSort batchLe (get_due_questions today questions)) batch_size

/-- Embedding of `SuperMemo2.get_chapter_questions_for_study`
(lines 260-286): filters the due questions, sorts them by the key
`(RecallDate or datetime.min, id)`, and truncates only when `limit` is
truthy, i.e. present and nonzero. -/
def get_chapter_questions_for_study (today : Int) (questions : List QuesAns)
    (limit : Option Int) : List QuesAns :=
  let sorted_questions := List.insertionSort chapterLe (get_due_questions today questions)
  match limit with
  | none => sorted_questions
  | some l => if l = 0 then sorted_questions else pySliceTo sorted_questions l

/-- Per-question success entry of `update_questions_batch` (the
`next_review` date string is kept as the underlying datetime value). -/
structure BatchDetail where
  id : Int
  next_review : PyDateTime
  interval : Int
  easiness : Rat
deriving DecidableEq

/-- Dictionary returned by `update_questions_batch`.  The empty-mapping
failure only sets `success` and `message`; the other fields then keep
their zero values. -/
structure BatchResult where
  success : Bool
  updated_count : Nat
  updated_questions : List BatchDetail
  errors : List String
  message : String
deriving DecidableEq

/-- Model of `question_lookup = \x7bq.id: q for q in questions\x7d`:
association pairs in input order; a later binding wins on lookup. -/
def buildLookup (questions : List QuesAns) : List (Int × QuesAns) :=
  questions.map (fun q => (q.id, q))

/-- Model of `question_lookup.get(i)`: the most recent binding of `i`. -/
def dictGet (m : List (Int × QuesAns)) (i : Int) : Option QuesAns :=
  (m.reverse.find? (fun p => p.1 == i)).map (fun p => p.2)

/-- Loop body of `update_questions_batch` (lines 215-243), processing the
`(question_id, grade)` pairs in order while threading the mutated
question objects: an invalid grade or an unknown id appends one error
message and moves on; a successful update mutates the looked-up question
in place (modelled by rebinding its id) and appends one success entry. -/
def processPairs (now : PyDateTime) (m : List (Int × QuesAns)) :
    List (Int × Int) → List (Int × QuesAns) × List BatchDetail × List String
  | [] => (m, [], [])
  | (question_id, grade) :: rest =>
    if 1 ≤ grade ∧ grade ≤ 5 then
      match dictGet m question_id with
      | none =>
        let r := processPairs now m rest
        (r.1, r.2.1,
          ("Question " ++ toString question_id ++ ": Not found in provided list") :: r.2.2)
      | some q =>
        match calculate_next_revision now q grade with
        | Except.error e =>
          let r := processPairs now m rest
          (r.1, r.2.1, ("Question " ++ toString question_id ++ ": " ++ e) :: r.2.2)
        | Except.ok upd =>
          let r := processPairs now (m ++ [(question_id, applyUpdate q upd)]) rest
          (r.1,
            { id := question_id, next_review := upd.RecallDate, interval := upd.Interval,
              easiness := upd.EasinessFactor } :: r.2.1,
            r.2.2)
    else
      let r := processPairs now m rest
      (r.1, r.2.1,
        ("Question " ++ toString question_id ++ ": Invalid grade " ++ toString grade) :: r.2.2)

/-- Embedding of `SuperMemo2.update_questions_batch` (lines 192-258).  An
empty grade mapping is the batch-level failure; otherwise every pair is
processed and the call reports batch-level success together with the
per-question entries and error messages.  (The outer `except` branch is
unreachable in the model: nothing after the empty check can raise.) -/
def update_questions_batch (now : PyDateTime) (questions : List QuesAns)
    (question_grades : List (Int × Int)) : BatchResult :=
  if question_grades.isEmpty then
    { success := false
      updated_count := 0
      updated_questions := []
      errors := []
      message := "No questions to update" }
  else
    let r := processPairs now (buildLookup questions) question_grades
    { success := true
      updated_count := r.2.1.length
      updated_questions := r.2.1
      errors := r.2.2
      message := "Successfully updated " ++ toString r.2.1.length ++ " questions" }

theorem lex2Le_total (x y : Int × Rat) : lex2Le x y ∨ lex2Le y x := by
  unfold lex2Le
  rcases lt_trichotomy x.1 y.1 with h | h | h
  · exact Or.inl (Or.inl h)
  · rcases le_total x.2 y.2 with h2 | h2
    · exact Or.inl (Or.inr ⟨h, h2⟩)
    · exact Or.inr (Or.inr ⟨h.symm, h2⟩)
  · exact Or.inr (Or.inl h)

theorem lex2Le_trans {x y z : Int × Rat} (h1 : lex2Le x y) (h2 : lex2Le y z) :
    lex2Le x z := by
  unfold lex2Le at *
  rcases h1 with h1 | ⟨h1e, h1r⟩
  · rcases h2 with h2 | ⟨h2e, h2r⟩
    · exact Or.inl (lt_trans h1 h2)
    · exact Or.inl (h2e ▸ h1)
  · rcases h2 with h2 | ⟨h2e, h2r⟩
    · exact Or.inl (h1e ▸ h2)
    · exact Or.inr ⟨h1e.trans h2e, le_trans h1r h2r⟩

theorem lex2Lt_asymm {x y : Int × Rat} (h1 : lex2Lt x y) (h2 : lex2Lt y x) : False := by
  unfold lex2Lt at *
  rcases h1 with h1 | ⟨h1e, h1r⟩
  · rcases h2 with h2 | ⟨h2e, _⟩
    · exact absurd h2 (lt_asymm h1)
    · exact absurd h1 (h2e ▸ lt_irrefl _)
  · rcases h2 with h2 | ⟨_, h2r⟩
    · exact absurd h2 (h1e ▸ lt_irrefl _)
    · exact absurd h2r (lt_asymm h1r)

theorem lex2Lt_of_le_of_ne {x y : Int × Rat} (h : lex2Le x y) (hne : x ≠ y) :
    lex2Lt x y := by
  unfold lex2Le at h
  unfold lex2Lt
  rcases h with h | ⟨he, hr⟩
  · exact Or.inl h
  · refine Or.inr ⟨he, lt_of_le_of_ne hr fun h2 => hne ?_⟩
    exact Prod.ext he h2

theorem lex2Le_of_lex3Le {x y : (Int × Rat) × Int} (h : lex3Le x y) :
    lex2Le x.1 y.1 := by
  unfold lex3Le at h
  rcases h with h | ⟨he, _⟩
  · unfold lex2Lt at h
    unfold lex2Le
    rcases h with h | ⟨he, hr⟩
    · exact Or.inl h
    · exact Or.inr ⟨he, le_of_lt hr⟩
  · rw [he]
    exact Or.inr ⟨rfl, le_refl _⟩

theorem lex3Le_total (x y : (Int × Rat) × Int) : lex3Le x y ∨ lex3Le y x := by
  unfold lex3Le
  by_cases he : x.1 = y.1
  · rcases le_total x.2 y.2 with h | h
    · exact Or.inl (Or.inr ⟨he, h⟩)
    · exact Or.inr (Or.inr ⟨he.symm, h⟩)
  · rcases lex2Le_total x.1 y.1 with h | h
    · exact Or.inl (Or.inl (lex2Lt_of_le_of_ne h he))
    · exact Or.inr (Or.inl (lex2Lt_of_le_of_ne h (Ne.symm he)))

theorem lex2Lt_trans {x y z : Int × Rat} (h1 : lex2Lt x y) (h2 : lex2Lt y z) :
    lex2Lt x z := by
  unfold lex2Lt at *
  rcases h1 with h1 | ⟨h1e, h1r⟩
  · rcases h2 with h2 | ⟨h2e, h2r⟩
    · exact Or.inl (lt_trans h1 h2)
    · exact Or.inl (h2e ▸ h1)
  · rcases h2 with h2 | ⟨h2e, h2r⟩
    · exact Or.inl (h1e ▸ h2)
    · exact Or.inr ⟨h1e.trans h2e, lt_trans h1r h2r⟩

theorem lex3Le_trans {x y z : (Int × Rat) × Int} (h1 : lex3Le x y) (h2 : lex3Le y z) :
    lex3Le x z := by
  unfold lex3Le at *
  rcases h1 with h1 | ⟨h1e, h1r⟩
  · rcases h2 with h2 | ⟨h2e, h2r⟩
    · exact Or.inl (lex2Lt_trans h1 h2)
    · exact Or.inl (h2e ▸ h1)
  · rcases h2 with h2 | ⟨h2e, h2r⟩
    · exact Or.inl (h1e ▸ h2)
    · exact Or.inr ⟨h1e.trans h2e, le_trans h1r h2r⟩

instance : IsTotal QuesAns batchLe := ⟨fun _ _ => lex2Le_total _ _⟩

instance : IsTrans QuesAns batchLe := ⟨fun _ _ _ => lex2Le_trans⟩

instance : IsTotal QuesAns chapterLe := ⟨fun _ _ => lex3Le_total _ _⟩

instance : IsTrans QuesAns chapterLe := ⟨fun _ _ _ => lex3Le_trans⟩

instance : IsAntisymm QuesAns batchLt :=
  ⟨fun _ _ h1 h2 => (lex2Lt_asymm h1 h2).elim⟩

theorem batchLe_of_chapterLe {a b : QuesAns} (h : chapterLe a b) : batchLe a b :=
  lex2Le_of_lex3Le h

theorem batchLt_of_batchLe_of_ne {a b : QuesAns} (h : batchLe a b)
    (hne : recallKey a ≠ recallKey b) : batchLt a b :=
  lex2Lt_of_le_of_ne h hne

theorem pyRound_ge_floor (q : Rat) : ⌊q⌋ ≤ pyRound q := by
  unfold pyRound
  dsimp only
  split_ifs <;> omega

theorem le_pyRound_of_le {c : Int} {q : Rat} (h : (c : Rat) ≤ q) : c ≤ pyRound q := by
  have h0 : c ≤ ⌊q⌋ := Int.le_floor.2 h
  have h1 : ⌊q⌋ ≤ pyRound q := pyRound_ge_floor q
  omega

theorem le_round2_of_le {c : Int} {q : Rat} (h : (c : Rat) / 100 ≤ q) :
    (c : Rat) / 100 ≤ round2 q := by
  unfold round2
  have h1 : (c : Rat) ≤ q * 100 := by linarith
  have h2 : c ≤ pyRound (q * 100) := le_pyRound_of_le h1
  have h3 : (c : Rat) ≤ (pyRound (q * 100) : Rat) := Int.cast_le.2 h2
  linarith

/-- Concrete question used by several witnesses: easiness 2, three prior
repetitions, interval 10. -/
def witnessQuestion : QuesAns :=
  { id := 7, EasinessFactor := some 2, Repetitions := some 3, Interval := some 10,
    RevisedDate := some ⟨3, 0⟩, RecallDate := some ⟨13, 0⟩, LastGrade := some 4 }

/-- Claim C1: for a grade in [1,5], `calculate_next_revision` follows the
SM-2 branch structure: a failing grade (< 3) resets repetitions to 0 and
the interval to 1; a passing grade increments the (default-resolved)
repetition count, and the new interval is 1 at one repetition, 6 at two,
and `round(previousInterval * newEasinessFactor)` beyond that, where the
previous values are the item's fields resolved with the documented
defaults and the new easiness factor is the clamped pre-rounding value of
step 3. -/
theorem sm2_interval_repetition_branches (now : PyDateTime) (q : QuesAns) (grade : Int)
    (h1 : 1 ≤ grade) (h5 : grade ≤ 5) :
    ∃ res, calculate_next_revision now q grade = Except.ok res ∧
      (grade < 3 → res.Repetitions = 0 ∧ res.Interval = 1) ∧
      (3 ≤ grade →
        res.Repetitions = pyOrZ q.Repetitions DEFAULT_REPETITIONS + 1 ∧
        (res.Repetitions = 1 → res.Interval = 1) ∧
        (res.Repetitions = 2 → res.Interval = 6) ∧
        (2 < res.Repetitions →
          res.Interval =
            pyRound ((pyOrZ q.Interval DEFAULT_INTERVAL : Rat) *
              (max MIN_EASINESS
                (pyOrQ q.EasinessFactor DEFAULT_EASINESS +
                  (0.1 - (5 - (grade : Rat)) * (0.08 + (5 - (grade : Rat)) * 0.02))))))) := by
  unfold calculate_next_revision
  rw [if_pos (⟨h1, h5⟩ : 1 ≤ grade ∧ grade ≤ 5)]
  by_cases hg : grade < 3
  · refine ⟨_, rfl, fun _ => ?_, fun h3 => absurd h3 (by omega)⟩
    constructor <;> simp [hg]
  · refine ⟨_, rfl, fun hlt => absurd hlt hg, fun _ => ?_⟩
    refine ⟨by simp [hg], fun hr1 => ?_, fun hr2 => ?_, fun hr3 => ?_⟩
    · simp only [hg, if_false] at hr1 ⊢
      simp [hr1]
    · simp only [hg, if_false] at hr2 ⊢
      have hne1 : ¬ pyOrZ q.Repetitions DEFAULT_REPETITIONS + 1 = 1 := by omega
      simp [hr2, hne1]
    · simp only [hg, if_false] at hr3 ⊢
      have hne1 : ¬ pyOrZ q.Repetitions DEFAULT_REPETITIONS + 1 = 1 := by omega
      have hne2 : ¬ pyOrZ q.Repetitions DEFAULT_REPETITIONS + 1 = 2 := by omega
      simp [hne1, hne2]

/-- Witness for `sm2_interval_repetition_branches` at grade 4. -/
theorem sm2_interval_repetition_branches_witness :
    (1 : Int) ≤ 4 ∧ (4 : Int) ≤ 5 ∧
    (∃ res, calculate_next_revision datetimeMin witnessQuestion 4 = Except.ok res ∧
      ((4 : Int) < 3 → res.Repetitions = 0 ∧ res.Interval = 1) ∧
      ((3 : Int) ≤ 4 →
        res.Repetitions = pyOrZ witnessQuestion.Repetitions DEFAULT_REPETITIONS + 1 ∧
        (res.Repetitions = 1 → res.Interval = 1) ∧
        (res.Repetitions = 2 → res.Interval = 6) ∧
        (2 < res.Repetitions →
          res.Interval =
            pyRound ((pyOrZ witnessQuestion.Interval DEFAULT_INTERVAL : Rat) *
              (max MIN_EASINESS
                (pyOrQ witnessQuestion.EasinessFactor DEFAULT_EASINESS +
                  (0.1 - (5 - ((4 : Int) : Rat)) * (0.08 + (5 - ((4 : Int) : Rat)) * 0.02)))))))) :=
  ⟨by decide, by decide,
    sm2_interval_repetition_branches datetimeMin witnessQuestion 4 (by decide) (by decide)⟩

/-- Claim C2: for a grade in [1,5] the easiness factor stored in the
result is `EF + (0.1 - (5-grade)*(0.08 + (5-grade)*0.02))` computed from
the current easiness (default 2.5 when the field supplies none), clamped
below at 1.3 (`MIN_EASINESS`), and rounded to 2 decimal digits. -/
theorem sm2_easiness_update (now : PyDateTime) (q : QuesAns) (grade : Int)
    (h1 : 1 ≤ grade) (h5 : grade ≤ 5) :
    ∃ res, calculate_next_revision now q grade = Except.ok res ∧
      res.EasinessFactor =
        round2 (max 1.3 (pyOrQ q.EasinessFactor 2.5 +
          (0.1 - (5 - (grade : Rat)) * (0.08 + (5 - (grade : Rat)) * 0.02)))) ∧
      MIN_EASINESS = 1.3 ∧ DEFAULT_EASINESS = 2.5 := by
  unfold calculate_next_revision
  rw [if_pos (⟨h1, h5⟩ : 1 ≤ grade ∧ grade ≤ 5)]
  exact ⟨_, rfl, rfl, rfl, rfl⟩

/-- Witness for `sm2_easiness_update` at grade 1. -/
theorem sm2_easiness_update_witness :
    (1 : Int) ≤ 1 ∧ (1 : Int) ≤ 5 ∧
    (∃ res, calculate_next_revision datetimeMin witnessQuestion 1 = Except.ok res ∧
      res.EasinessFactor =
        round2 (max 1.3 (pyOrQ witnessQuestion.EasinessFactor 2.5 +
          (0.1 - (5 - ((1 : Int) : Rat)) * (0.08 + (5 - ((1 : Int) : Rat)) * 0.02)))) ∧
      MIN_EASINESS = 1.3 ∧ DEFAULT_EASINESS = 2.5) :=
  ⟨by decide, by decide,
    sm2_easiness_update datetimeMin witnessQuestion 1 (by decide) (by decide)⟩

/-- Claim C3: when the item's current easiness factor is at least 1.3 (or
absent) and its current interval is at least 1 (or absent), every grade
in [1,5] yields a result whose easiness factor is still at least 1.3
(even after rounding to 2 decimals) and whose interval is at least 1. -/
theorem sm2_invariants_preserved (now : PyDateTime) (q : QuesAns) (grade : Int)
    (_hEF : q.EasinessFactor = none ∨ ∃ e, q.EasinessFactor = some e ∧ (13 : Rat) / 10 ≤ e)
    (hInt : q.Interval = none ∨ ∃ i, q.Interval = some i ∧ 1 ≤ i)
    (h1 : 1 ≤ grade) (h5 : grade ≤ 5) :
    ∃ res, calculate_next_revision now q grade = Except.ok res ∧
      (13 : Rat) / 10 ≤ res.EasinessFactor ∧ 1 ≤ res.Interval := by
  have hint1 : 1 ≤ pyOrZ q.Interval DEFAULT_INTERVAL := by
    rcases hInt with h | ⟨i, hi, h1i⟩
    · simp [pyOrZ, h, DEFAULT_INTERVAL]
    · have : i ≠ 0 := by omega
      simp [pyOrZ, hi, this]
      omega
  have hef13 : (13 : Rat) / 10 ≤
      max MIN_EASINESS
        (pyOrQ q.EasinessFactor DEFAULT_EASINESS +
          (0.1 - (5 - (grade : Rat)) * (0.08 + (5 - (grade : Rat)) * 0.02))) := by
    refine le_trans (le_of_eq ?_) (le_max_left _ _)
    norm_num [MIN_EASINESS]
  unfold calculate_next_revision
  rw [if_pos (⟨h1, h5⟩ : 1 ≤ grade ∧ grade ≤ 5)]
  refine ⟨_, rfl, ?_, ?_⟩
  · show (13 : Rat) / 10 ≤ round2 _
    have h130 : ((130 : Int) : Rat) / 100 ≤
        max MIN_EASINESS
          (pyOrQ q.EasinessFactor DEFAULT_EASINESS +
            (0.1 - (5 - (grade : Rat)) * (0.08 + (5 - (grade : Rat)) * 0.02))) := by
      refine le_trans (le_of_eq ?_) hef13
      norm_num
    have := le_round2_of_le h130
    refine le_trans (le_of_eq ?_) this
    norm_num
  · show (1 : Int) ≤ _
    by_cases hg : grade < 3
    · simp [hg]
    · simp only [hg, if_false]
      by_cases hr1 : pyOrZ q.Repetitions DEFAULT_REPETITIONS + 1 = 1
      · simp [hr1]
      · by_cases hr2 : pyOrZ q.Repetitions DEFAULT_REPETITIONS + 1 = 2
        · simp [hr1, hr2]
        · simp only [hr1, hr2, if_false]
          refine le_pyRound_of_le ?_
          have hcast : (1 : Rat) ≤ (pyOrZ q.Interval DEFAULT_INTERVAL : Rat) := by
            exact_mod_cast hint1
          have hef1 : (1 : Rat) ≤
              max MIN_EASINESS
                (pyOrQ q.EasinessFactor DEFAULT_EASINESS +
                  (0.1 - (5 - (grade : Rat)) * (0.08 + (5 - (grade : Rat)) * 0.02))) := by
            refine le_trans ?_ hef13
            norm_num
          nlinarith

/-- Witness for `sm2_invariants_preserved` at grade 3. -/
theorem sm2_invariants_preserved_witness :
    (witnessQuestion.EasinessFactor = none ∨
      ∃ e, witnessQuestion.EasinessFactor = some e ∧ (13 : Rat) / 10 ≤ e) ∧
    (witnessQuestion.Interval = none ∨ ∃ i, witnessQuestion.Interval = some i ∧ 1 ≤ i) ∧
    (1 : Int) ≤ 3 ∧ (3 : Int) ≤ 5 ∧
    (∃ res, calculate_next_revision datetimeMin witnessQuestion 3 = Except.ok res ∧
      (13 : Rat) / 10 ≤ res.EasinessFactor ∧ 1 ≤ res.Interval) :=
  ⟨Or.inr ⟨2, rfl, by norm_num⟩, Or.inr ⟨10, rfl, by norm_num⟩, by decide, by decide,
    sm2_invariants_preserved datetimeMin witnessQuestion 3
      (Or.inr ⟨2, rfl, by norm_num⟩) (Or.inr ⟨10, rfl, by norm_num⟩)
      (by decide) (by decide)⟩

/-- Claim C4: a grade outside [1,5] makes `calculate_next_revision` raise
the invalid-grade error, and `update_question_after_review` then
propagates the error without assigning any field of the question, so the
item state is unchanged. -/
theorem sm2_invalid_grade_rejected (now : PyDateTime) (q : QuesAns) (grade : Int)
    (h : ¬ (1 ≤ grade ∧ grade ≤ 5)) :
    calculate_next_revision now q grade = Except.error ("Grade must be between 1 and 5") ∧
    update_question_after_review now q grade =
      Except.error ("Grade must be between 1 and 5") := by
  have hc : calculate_next_revision now q grade =
      Except.error ("Grade must be between 1 and 5") := by
    unfold calculate_next_revision
    rw [if_neg h]
  refine ⟨hc, ?_⟩
  unfold update_question_after_review
  rw [hc]

/-- Witness for `sm2_invalid_grade_rejected` at grade 9. -/
theorem sm2_invalid_grade_rejected_witness :
    (¬ ((1 : Int) ≤ 9 ∧ (9 : Int) ≤ 5)) ∧
    (calculate_next_revision datetimeMin witnessQuestion 9 =
        Except.error ("Grade must be between 1 and 5") ∧
      update_question_after_review datetimeMin witnessQuestion 9 =
        Except.error ("Grade must be between 1 and 5")) :=
  ⟨by decide, sm2_invalid_grade_rejected datetimeMin witnessQuestion 9 (by decide)⟩

/-- Claim C6: `get_due_questions` returns exactly the sublist of
questions whose recall date is absent or whose date component is at most
today; equivalently, membership in the result is membership in the input
together with that due condition, so an item dated strictly after today
is excluded. -/
theorem due_selection_membership (today : Int) (qs : List QuesAns) (q : QuesAns) :
    q ∈ get_due_questions today qs ↔
      q ∈ qs ∧ (q.RecallDate = none ∨ ∃ d, q.RecallDate = some d ∧ d.day ≤ today) := by
  unfold get_due_questions
  rw [List.mem_filter]
  constructor
  · rintro ⟨hmem, hdue⟩
    refine ⟨hmem, ?_⟩
    unfold isDue at hdue
    cases hrd : q.RecallDate with
    | none => exact Or.inl rfl
    | some d =>
      rw [hrd] at hdue
      exact Or.inr ⟨d, rfl, of_decide_eq_true hdue⟩
  · rintro ⟨hmem, hdue⟩
    refine ⟨hmem, ?_⟩
    unfold isDue
    rcases hdue with h | ⟨d, hd, hday⟩
    · rw [h]
    · rw [hd]
      exact decide_eq_true hday

theorem processPairs_outcome_count (now : PyDateTime) :
    ∀ (gs : List (Int × Int)) (m : List (Int × QuesAns)),
      (processPairs now m gs).2.1.length + (processPairs now m gs).2.2.length = gs.length := by
  intro gs
  induction gs with
  | nil => intro m; simp [processPairs]
  | cons p rest ih =>
    intro m
    obtain ⟨qid, g⟩ := p
    by_cases hg : 1 ≤ g ∧ g ≤ 5
    · cases hq : dictGet m qid with
      | none =>
        simp only [processPairs, if_pos hg, hq, List.length_cons]
        have := ih m
        omega
      | some q0 =>
        cases hc : calculate_next_revision now q0 g with
        | error e =>
          simp only [processPairs, if_pos hg, hq, hc, List.length_cons]
          have := ih m
          omega
        | ok upd =>
          simp only [processPairs, if_pos hg, hq, hc, List.length_cons]
          have := ih (m ++ [(qid, applyUpdate q0 upd)])
          omega
    · simp only [processPairs, if_neg hg, List.length_cons]
      have := ih m
      omega

/-- Claim C5: `update_questions_batch` reports batch-level failure exactly
when the grade mapping is empty; for a non-empty mapping it reports
success with an updated count matching the detail list, and every pair
contributes exactly one outcome (a detail entry or an error string), so
even an all-failing mapping is a success with errors.  A pair with an
invalid grade, or with an id that the lookup does not know, appends its
single error message and leaves the processing of the remaining pairs
unaffected. -/
theorem batch_update_contract (now : PyDateTime) (qs : List QuesAns)
    (gs : List (Int × Int)) :
    ((update_questions_batch now qs gs).success = false ↔ gs = []) ∧
    (gs ≠ [] →
      (update_questions_batch now qs gs).success = true ∧
      (update_questions_batch now qs gs).updated_count =
        (update_questions_batch now qs gs).updated_questions.length ∧
      (update_questions_batch now qs gs).updated_questions.length +
        (update_questions_batch now qs gs).errors.length = gs.length) ∧
    (∀ (m : List (Int × QuesAns)) (qid g : Int) (rest : List (Int × Int)),
      ¬ (1 ≤ g ∧ g ≤ 5) →
      processPairs now m ((qid, g) :: rest) =
        ((processPairs now m rest).1, (processPairs now m rest).2.1,
          ("Question " ++ toString qid ++ ": Invalid grade " ++ toString g) ::
            (processPairs now m rest).2.2)) ∧
    (∀ (m : List (Int × QuesAns)) (qid g : Int) (rest : List (Int × Int)),
      (1 ≤ g ∧ g ≤ 5) → dictGet m qid = none →
      processPairs now m ((qid, g) :: rest) =
        ((processPairs now m rest).1, (processPairs now m rest).2.1,
          ("Question " ++ toString qid ++ ": Not found in provided list") ::
            (processPairs now m rest).2.2)) := by
  refine ⟨?_, ?_, ?_, ?_⟩
  · cases gs with
    | nil => simp [update_questions_batch]
    | cons p rest => simp [update_questions_batch]
  · intro hne
    have hemp : gs.isEmpty = false := by
      cases gs with
      | nil => exact absurd rfl hne
      | cons p rest => rfl
    unfold update_questions_batch
    rw [hemp]
    simp only [Bool.false_eq_true, if_false]
    refine ⟨by trivial, by trivial, ?_⟩
    exact processPairs_outcome_count now gs (buildLookup qs)
  · intro m qid g rest hg
    simp [processPairs, hg]
  · intro m qid g rest hg hnone
    simp [processPairs, hg, hnone]

/-- Witness for `batch_update_contract` on the singleton mapping with the
invalid grade 9 against an empty collection. -/
theorem batch_update_contract_witness :
    (([((1 : Int), (9 : Int))] : List (Int × Int)) ≠ []) ∧
    (update_questions_batch datetimeMin [] [(1, 9)]).success = true ∧
    (update_questions_batch datetimeMin [] [(1, 9)]).updated_questions.length +
      (update_questions_batch datetimeMin [] [(1, 9)]).errors.length = 1 ∧
    (¬ ((1 : Int) ≤ 9 ∧ (9 : Int) ≤ 5)) ∧
    processPairs datetimeMin [] [((1 : Int), (9 : Int))] =
      ((processPairs datetimeMin [] []).1, (processPairs datetimeMin [] []).2.1,
        ("Question " ++ toString (1 : Int) ++ ": Invalid grade " ++ toString (9 : Int)) ::
          (processPairs datetimeMin [] []).2.2) ∧
    dictGet [] (1 : Int) = none ∧
    ((1 : Int) ≤ 4 ∧ (4 : Int) ≤ 5) ∧
    processPairs datetimeMin [] [((1 : Int), (4 : Int))] =
      ((processPairs datetimeMin [] []).1, (processPairs datetimeMin [] []).2.1,
        ("Question " ++ toString (1 : Int) ++ ": Not found in provided list") ::
          (processPairs datetimeMin [] []).2.2) := by
  have h := batch_update_contract datetimeMin [] [(1, 9)]
  refine ⟨by decide, (h.2.1 (by decide)).1, (h.2.1 (by decide)).2.2, by decide,
    h.2.2.1 [] 1 9 [] (by decide), by decide, by decide,
    h.2.2.2 [] 1 4 [] (by decide) (by decide)⟩

/-- Concrete never-reviewed question used for the limit-zero claims. -/
def freshQuestion : QuesAns :=
  { id := 1, EasinessFactor := none, Repetitions := none, Interval := none,
    RevisedDate := none, RecallDate := none, LastGrade := none }

/-- Claim C9 counterexample: with `limit = 0` supplied,
`get_chapter_questions_for_study` does not return the first 0 elements
(the empty list) of the sorted due set; the truthiness guard treats 0
like an omitted limit and the whole due set comes back. -/
theorem study_batch_zero_limit_counterexample :
    get_chapter_questions_for_study 1 [freshQuestion] (some 0) ≠
      List.take (0 : Int).toNat (get_chapter_questions_for_study 1 [freshQuestion] none) := by
  decide

/-- Claim C9 (amended: a supplied limit truncates only when it is
positive; `limit = 0` falls through to the full list, see the separate
zero-limit theorem): `get_chapter_questions_for_study` with no limit
returns a permutation of the due set that is sorted by the key
`(recallDate or datetime.min, id)`, and a positive limit returns the
first `limit` elements of that sorted list. -/
theorem study_batch_sorted_and_truncated (today : Int) (qs : List QuesAns) (l : Int)
    (hl : 0 < l) :
    (get_chapter_questions_for_study today qs none).Perm (get_due_questions today qs) ∧
    List.Sorted chapterLe (get_chapter_questions_for_study today qs none) ∧
    get_chapter_questions_for_study today qs (some l) =
      (get_chapter_questions_for_study today qs none).take l.toNat := by
  refine ⟨List.perm_insertionSort chapterLe _, List.sorted_insertionSort chapterLe _, ?_⟩
  have h0 : ¬ l = 0 := by omega
  have h1 : (0 : Int) ≤ l := by omega
  unfold get_chapter_questions_for_study pySliceTo
  dsimp only
  rw [if_neg h0, if_pos h1]

/-- Witness for `study_batch_sorted_and_truncated` with limit 2. -/
theorem study_batch_sorted_and_truncated_witness :
    (0 : Int) < 2 ∧
    ((get_chapter_questions_for_study 1 [freshQuestion] none).Perm
        (get_due_questions 1 [freshQuestion]) ∧
      List.Sorted chapterLe (get_chapter_questions_for_study 1 [freshQuestion] none) ∧
      get_chapter_questions_for_study 1 [freshQuestion] (some 2) =
        (get_chapter_questions_for_study 1 [freshQuestion] none).take (2 : Int).toNat) :=
  ⟨by decide, study_batch_sorted_and_truncated 1 [freshQuestion] 2 (by decide)⟩

/-- Claim C10: supplying `limit = 0` to `get_chapter_questions_for_study`
behaves exactly like omitting the limit — the truthiness test skips the
truncation — and in particular a nonempty due set comes back whole, not
as an empty list. -/
theorem zero_limit_behaves_as_omitted (today : Int) (qs : List QuesAns) :
    get_chapter_questions_for_study today qs (some 0) =
      get_chapter_questions_for_study today qs none ∧
    get_chapter_questions_for_study 1 [freshQuestion] (some 0) ≠ [] := by
  constructor
  · unfold get_chapter_questions_for_study
    dsimp only
    rw [if_pos rfl]
  · decide

theorem pySumEF_ok :
    ∀ (l : List QuesAns) (acc : Rat), (∀ q ∈ l, q.EasinessFactor.isSome) →
      pySumEF acc l =
        Except.ok (acc + (l.map (fun q => q.EasinessFactor.getD 0)).sum) := by
  intro l
  induction l with
  | nil => intro acc _; simp [pySumEF]
  | cons q rest ih =>
    intro acc h
    have hq := h q (List.mem_cons_self q rest)
    obtain ⟨e, he⟩ := Option.isSome_iff_exists.mp hq
    have hrest : ∀ p ∈ rest, p.EasinessFactor.isSome :=
      fun p hp => h p (List.mem_cons_of_mem q hp)
    rw [pySumEF, he]
    dsimp only
    rw [ih (acc + e) hrest]
    simp [he, add_assoc]

/-- Concrete question whose `RevisedDate` is set while its easiness
factor is missing: the state on which the statistics sum raises. -/
def easinesslessStudied : QuesAns :=
  { id := 9, EasinessFactor := none, Repetitions := none, Interval := none,
    RevisedDate := some ⟨2, 0⟩, RecallDate := none, LastGrade := none }

/-- Claim C7 counterexample: `get_study_statistics` is not total — on a
collection holding a question with a revised date but no easiness
factor, `sum(q.EasinessFactor ...)` adds `None` to a number and raises
`TypeError`, modelled as this error value. -/
theorem statistics_crash_on_missing_easiness :
    get_study_statistics 1 [easinesslessStudied] =
      Except.error ("unsupported operand type for +: NoneType") := by rfl

/-- Claim C7 (amended: the no-failure guarantee needs every studied item,
i.e. every item with a present revised date, to carry an easiness
factor — on other states the easiness sum raises `TypeError`): the
statistics call then succeeds on every collection; the empty collection
yields the all-zero record with average easiness 2.5, the total count is
the collection's size, and the average easiness is the mean easiness
factor over the studied items only, rounded to 2 decimals, defaulting to
2.5 when no item has been studied. -/
theorem statistics_total_and_average (today : Int) (qs : List QuesAns)
    (h : ∀ q ∈ qs, q.RevisedDate.isSome = true → q.EasinessFactor.isSome = true) :
    ∃ st, get_study_statistics today qs = Except.ok st ∧
      (qs = [] →
        st = { total_questions := 0, due_today := 0, new_questions := 0,
               studied_questions := 0, average_easiness_factor := 2.5,
               completion_rate := 0 }) ∧
      st.total_questions = qs.length ∧
      st.average_easiness_factor =
        round2 (if (qs.filter fun q => q.RevisedDate.isSome).isEmpty then 2.5
          else ((qs.filter fun q => q.RevisedDate.isSome).map
              (fun q => q.EasinessFactor.getD 0)).sum /
            ((qs.filter fun q => q.RevisedDate.isSome).length : Rat)) := by
  cases qs with
  | nil =>
    refine ⟨_, rfl, fun _ => ?_, rfl, ?_⟩
    · norm_num [DEFAULT_EASINESS]
    · norm_num [DEFAULT_EASINESS, round2, pyRound]
  | cons q0 rest =>
    have hemp : (q0 :: rest).isEmpty = false := rfl
    unfold get_study_statistics
    rw [hemp]
    simp only [Bool.false_eq_true, if_false]
    by_cases hst : ((q0 :: rest).filter (fun q => q.RevisedDate.isSome)).isEmpty
    · rw [if_pos hst]
      refine ⟨_, rfl, fun habs => absurd habs (List.cons_ne_nil q0 rest), rfl, ?_⟩
      rw [if_pos hst]
      rfl
    · rw [if_neg hst]
      have hall : ∀ q ∈ (q0 :: rest).filter (fun q => q.RevisedDate.isSome),
          q.EasinessFactor.isSome := by
        intro q hq
        have hmf := List.mem_filter.mp hq
        exact h q hmf.1 hmf.2
      rw [pySumEF_ok _ 0 hall]
      dsimp only [Except.map]
      refine ⟨_, rfl, fun habs => absurd habs (List.cons_ne_nil q0 rest), rfl, ?_⟩
      rw [if_neg hst, zero_add]

/-- Concrete studied question with a present easiness factor. -/
def studiedQuestion : QuesAns :=
  { id := 4, EasinessFactor := some 2, Repetitions := some 1, Interval := some 1,
    RevisedDate := some ⟨2, 0⟩, RecallDate := some ⟨3, 0⟩, LastGrade := some 4 }

/-- Witness for `statistics_total_and_average` on a one-question
collection. -/
theorem statistics_total_and_average_witness :
    (∀ q ∈ [studiedQuestion], q.RevisedDate.isSome = true →
      q.EasinessFactor.isSome = true) ∧
    (∃ st, get_study_statistics 1 [studiedQuestion] = Except.ok st ∧
      (([studiedQuestion] : List QuesAns) = [] →
        st = { total_questions := 0, due_today := 0, new_questions := 0,
               studied_questions := 0, average_easiness_factor := 2.5,
               completion_rate := 0 }) ∧
      st.total_questions = ([studiedQuestion] : List QuesAns).length ∧
      st.average_easiness_factor =
        round2 (if (([studiedQuestion] : List QuesAns).filter
              fun q => q.RevisedDate.isSome).isEmpty then 2.5
          else ((([studiedQuestion] : List QuesAns).filter
                fun q => q.RevisedDate.isSome).map
              (fun q => q.EasinessFactor.getD 0)).sum /
            ((([studiedQuestion] : List QuesAns).filter
                fun q => q.RevisedDate.isSome).length : Rat))) :=
  ⟨by decide, statistics_total_and_average 1 [studiedQuestion] (by decide)⟩

/-- Concrete never-reviewed question with id 2, listed before its id-1
sibling to expose the missing id tie-break. -/
def tieSecond : QuesAns :=
  { id := 2, EasinessFactor := none, Repetitions := none, Interval := none,
    RevisedDate := none, RecallDate := none, LastGrade := none }

/-- Concrete never-reviewed question with id 1. -/
def tieFirst : QuesAns :=
  { id := 1, EasinessFactor := none, Repetitions := none, Interval := none,
    RevisedDate := none, RecallDate := none, LastGrade := none }

/-- Claim C8 counterexample: `get_next_review_batch` sorts the due set by
`RecallDate` alone, so two due questions sharing a recall-date key keep
their input order (the sort is stable), while
`get_chapter_questions_for_study` breaks the tie by id; on the list
`[id 2, id 1]` (both never scheduled) the two truncated outputs differ. -/
theorem review_batch_tie_divergence :
    get_next_review_batch 1 [tieSecond, tieFirst] 10 ≠
      pySliceTo (get_chapter_questions_for_study 1 [tieSecond, tieFirst] none) 10 := by
  decide

/-- Claim C8 (amended: the two entry points agree only up to the missing
id tie-break, so equality needs the due questions' recall-date keys to
be pairwise distinct): under that hypothesis `get_next_review_batch`
equals `get_chapter_questions_for_study` without a limit, truncated to
`batch_size` — the identical due selection and sort, differing only in
the mandatory truncation. -/
theorem review_batch_refines_study_batch (today : Int) (qs : List QuesAns) (n : Int)
    (h : (get_due_questions today qs).Pairwise (fun a b => recallKey a ≠ recallKey b)) :
    get_next_review_batch today qs n =
      pySliceTo (get_chapter_questions_for_study today qs none) n := by
  have key : List.insertionSort batchLe (get_due_questions today qs) =
      List.insertionSort chapterLe (get_due_questions today qs) := by
    have p1 := List.perm_insertionSort batchLe (get_due_questions today qs)
    have p2 := List.perm_insertionSort chapterLe (get_due_questions today qs)
    have s1 : List.Sorted batchLe
        (List.insertionSort batchLe (get_due_questions today qs)) :=
      List.sorted_insertionSort batchLe _
    have s2 : List.Sorted chapterLe
        (List.insertionSort chapterLe (get_due_questions today qs)) :=
      List.sorted_insertionSort chapterLe _
    have hsym : ∀ {x y : QuesAns},
        (fun a b => recallKey a ≠ recallKey b) x y →
        (fun a b => recallKey a ≠ recallKey b) y x := fun hxy => Ne.symm hxy
    have hne1 : (List.insertionSort batchLe (get_due_questions today qs)).Pairwise
        (fun a b => recallKey a ≠ recallKey b) := (p1.pairwise_iff hsym).mpr h
    have hne2 : (List.insertionSort chapterLe (get_due_questions today qs)).Pairwise
        (fun a b => recallKey a ≠ recallKey b) := (p2.pairwise_iff hsym).mpr h
    have st1 : (List.insertionSort batchLe (get_due_questions today qs)).Pairwise batchLt :=
      List.Pairwise.imp (fun hab => batchLt_of_batchLe_of_ne hab.1 hab.2)
        (List.Pairwise.and s1 hne1)
    have sb2 : (List.insertionSort chapterLe (get_due_questions today qs)).Pairwise batchLe :=
      List.Pairwise.imp (fun hab => batchLe_of_chapterLe hab) s2
    have st2 : (List.insertionSort chapterLe (get_due_questions today qs)).Pairwise batchLt :=
      List.Pairwise.imp (fun hab => batchLt_of_batchLe_of_ne hab.1 hab.2)
        (List.Pairwise.and sb2 hne2)
    exact List.eq_of_perm_of_sorted (p1.trans p2.symm) st1 st2
  show pySliceTo (List.insertionSort batchLe (get_due_questions today qs)) n =
      pySliceTo (List.insertionSort chapterLe (get_due_questions today qs)) n
  rw [key]

/-- Concrete overdue question: id 1, recalled on day 3. -/
def overdueQuestion : QuesAns :=
  { id := 1, EasinessFactor := none, Repetitions := none, Interval := none,
    RevisedDate := none, RecallDate := some ⟨3, 0⟩, LastGrade := none }

/-- Witness for `review_batch_refines_study_batch` on a two-question
collection with distinct recall-date keys. -/
theorem review_batch_refines_study_batch_witness :
    (get_due_questions 5 [overdueQuestion, tieSecond]).Pairwise
      (fun a b => recallKey a ≠ recallKey b) ∧
    get_next_review_batch 5 [overdueQuestion, tieSecond] 10 =
      pySliceTo (get_chapter_questions_for_study 5 [overdueQuestion, tieSecond] none) 10 :=
  ⟨by decide, review_batch_refines_study_batch 5 [overdueQuestion, tieSecond] 10 (by decide)⟩
